import Mathlib

/-!
# AutoSre client: verification of the state-synchronization engine

Shallow embedding of the client-side state-synchronization engine of the
AutoSre dashboard (src/frontend/src/App.jsx and the presentation helpers in
src/frontend/src/components).  The embedding follows the source:

* `fetchData` models `App.fetchData`: three concurrent reads joined by
  `Promise.all`, three sequential body parses, then the three state setters
  plus `setLoading(false)`; the single `catch` logs and emits one toast.
* `restartService` and `simulateIncident` model the two action dispatchers.
* `schedStep` models the timer lifecycle installed by `App.useEffect`
  (`fetchData(); const interval = setInterval(fetchData, 5000);
  return () => clearInterval(interval)`): ticks fire only while the interval
  is installed, and a resolving in-flight `fetchData` commits its setters
  unconditionally (the source has no epoch or generation guard).
* `syncAttempts` models the times at which the timer semantics invokes
  `fetchData`: once immediately at t = 0, then at every positive multiple of
  the period, until the horizon, excluding ticks at or after `clearInterval`.
* `healthyCount`, `unhealthyCount`, `activeIncidents` model the derived
  metrics computed in `Dashboard.jsx`; `alertPanel` models `AlertPanel.jsx`.
-/

/-- A parsed JSON value, as returned by `response.json()`.  The source is
untyped JavaScript: the three `useState` cells hold whatever value the body
parsed to, so the embedding stores `Json` rather than a typed record. -/
inductive Json where
  | null
  | bool (b : Bool)
  | num (n : Int)
  | str (s : String)
  | arr (elems : List Json)
  | obj (fields : List (String × Json))

/-- An operator-visible notification routed through `react-hot-toast`. -/
inductive Toast where
  | success (msg : String)
  | error (msg : String)
deriving DecidableEq

/-- The outcome of one `fetch(...)` read as the source consumes it: either the
promise rejected (network unreachable / timeout), or a response arrived with
an `ok` flag (status in 2xx) and a body whose `json()` parse either succeeded
(`some`) or rejected (`none`, malformed body). -/
inductive ReadResult where
  | netError
  | resp (ok : Bool) (body : Option Json)

/-- The outcome of one mutating `fetch(..., { method: POST })` as the source
consumes it: rejection, or a response of which only the `ok` flag is read. -/
inductive ActionResult where
  | netError
  | resp (ok : Bool)
deriving DecidableEq

/-- The component state of `App`: the three `useState` cells replaced by
`fetchData`, plus the `loading` flag.  There is no `syncError` field in the
source, so there is none here. -/
structure AppState where
  services : Json
  incidents : Json
  aiStatus : Json
  loading : Bool

/-- `App.fetchData` (App.jsx lines 70-90).  `Promise.all` rejects if any fetch
rejects; each `json()` await rejects on a malformed body; any rejection lands
in the single `catch`, which leaves all state cells untouched and emits one
error toast.  Only when all three bodies parse do the three setters and
`setLoading(false)` run — the `ok` flag of the responses is never consulted. -/
def fetchData (st : AppState) (rs ri ra : ReadResult) : AppState × List Toast :=
  match rs, ri, ra with
  | ReadResult.resp _ (some s), ReadResult.resp _ (some i), ReadResult.resp _ (some a) =>
      ({ services := s, incidents := i, aiStatus := a, loading := false }, [])
  | _, _, _ => (st, [Toast.error "Failed to fetch data from backend"])

/-- A read fails, in the sense that it makes `fetchData` take its `catch`
branch, exactly when its fetch rejected or its body failed to parse.  A non-2xx
response with a well-formed body does not fail (see the C2 analysis). -/
def readFailed : ReadResult → Bool
  | ReadResult.netError => true
  | ReadResult.resp _ none => true
  | ReadResult.resp _ (some _) => false

/-- C1: if any of the three reads in a sync fails, the resulting state keeps
the prior services, incidents and agentStatus all unchanged — no partial
merge of old and new data across the three entity types ever occurs. -/
theorem C1_failed_sync_no_partial_merge (st : AppState) (rs ri ra : ReadResult)
    (h : (readFailed rs || readFailed ri || readFailed ra) = true) :
    (fetchData st rs ri ra).1.services = st.services ∧
    (fetchData st rs ri ra).1.incidents = st.incidents ∧
    (fetchData st rs ri ra).1.aiStatus = st.aiStatus := by
  rcases rs with _ | ⟨o1, _ | b1⟩ <;>
    rcases ri with _ | ⟨o2, _ | b2⟩ <;>
      rcases ra with _ | ⟨o3, _ | b3⟩ <;>
        simp [readFailed] at h <;>
          exact ⟨rfl, rfl, rfl⟩

/-- Witness for C1 at a concrete failing sync: the services read rejects while
the other two succeed; every cell of the prior state is retained. -/
theorem C1_witness :
    (readFailed ReadResult.netError ||
      readFailed (ReadResult.resp true (some (Json.arr []))) ||
      readFailed (ReadResult.resp true (some Json.null))) = true ∧
    (fetchData ⟨Json.arr [], Json.arr [], Json.obj [], true⟩
        ReadResult.netError
        (ReadResult.resp true (some (Json.arr [])))
        (ReadResult.resp true (some Json.null))).1.services = Json.arr [] :=
  ⟨by decide,
   (C1_failed_sync_no_partial_merge ⟨Json.arr [], Json.arr [], Json.obj [], true⟩
      ReadResult.netError
      (ReadResult.resp true (some (Json.arr [])))
      (ReadResult.resp true (some Json.null)) (by decide)).1⟩

/-- A concrete prior state for the counterexamples: empty service and incident
arrays, empty agent-status object, as after `useState([])` / `useState({})`. -/
def priorState : AppState :=
  { services := Json.arr [], incidents := Json.arr [], aiStatus := Json.obj [],
    loading := true }

/-- A well-formed JSON error body, as a backend like FastAPI returns with a
non-2xx status. -/
def errBody : Json := Json.obj [("detail", Json.str "Internal Server Error")]

/-- C2 counterexample: every read returns a non-2xx response (`ok = false`)
carrying a well-formed JSON error body.  The claim says such a sync is treated
as failed and the Snapshot is not replaced with the response bodies; the code
never consults the `ok` flag, so the sync succeeds and the error bodies are
committed to the state. -/
theorem C2_counterexample :
    (fetchData priorState
        (ReadResult.resp false (some errBody))
        (ReadResult.resp false (some errBody))
        (ReadResult.resp false (some errBody))).1.services = errBody ∧
    errBody ≠ priorState.services := by
  refine ⟨rfl, ?_⟩
  intro h
  rw [show errBody = Json.obj [("detail", Json.str "Internal Server Error")] from rfl,
    show priorState.services = Json.arr [] from rfl] at h
  exact Json.noConfusion h

/-- C2 as amended: a read makes the sync fail exactly when its fetch rejects
(network unreachable / timeout) or its body is malformed; the HTTP status is
never consulted, so a non-2xx response with a well-formed JSON body counts as
a success and its body is committed to the state, with no toast. -/
theorem C2_failure_is_rejection_or_malformed (st : AppState) :
    (∀ o1 o2 o3 : Bool, ∀ b1 b2 b3 : Json,
      fetchData st (ReadResult.resp o1 (some b1)) (ReadResult.resp o2 (some b2))
          (ReadResult.resp o3 (some b3)) =
        ({ services := b1, incidents := b2, aiStatus := b3, loading := false }, [])) ∧
    (∀ rs ri ra : ReadResult, (readFailed rs || readFailed ri || readFailed ra) = true →
      fetchData st rs ri ra = (st, [Toast.error "Failed to fetch data from backend"])) := by
  refine ⟨fun _ _ _ _ _ _ => rfl, fun rs ri ra h => ?_⟩
  rcases rs with _ | ⟨o1, _ | b1⟩ <;>
    rcases ri with _ | ⟨o2, _ | b2⟩ <;>
      rcases ra with _ | ⟨o3, _ | b3⟩ <;>
        simp [readFailed] at h <;>
          rfl

/-- Witness for C2 as amended: concrete instances of both branches. -/
theorem C2_witness :
    (fetchData priorState (ReadResult.resp false (some errBody))
        (ReadResult.resp true (some (Json.arr []))) (ReadResult.resp true (some Json.null)) =
      ({ services := errBody, incidents := Json.arr [], aiStatus := Json.null,
          loading := false }, [])) ∧
    fetchData priorState ReadResult.netError ReadResult.netError ReadResult.netError =
      (priorState, [Toast.error "Failed to fetch data from backend"]) :=
  ⟨(C2_failure_is_rejection_or_malformed priorState).1 false true true errBody
      (Json.arr []) Json.null,
   (C2_failure_is_rejection_or_malformed priorState).2 ReadResult.netError
      ReadResult.netError ReadResult.netError (by decide)⟩

/-- `App.restartService` (App.jsx lines 92-108), abstracted over the outcome of
the POST: the result records how many `fetchData()` resynchronizations the
dispatcher triggers and the toasts it emits.  On `response.ok` it toasts
success and calls `fetchData()` once; on a non-ok response it toasts failure;
on a rejected fetch the `catch` toasts failure.  The service id only selects
the URL. -/
def restartService (serviceId : Nat) (r : ActionResult) : Nat × List Toast :=
  match serviceId, r with
  | _, ActionResult.resp true => (1, [Toast.success "Service restarted successfully"])
  | _, ActionResult.resp false => (0, [Toast.error "Failed to restart service"])
  | _, ActionResult.netError => (0, [Toast.error "Error restarting service"])

/-- `App.simulateIncident` (App.jsx lines 110-124): like `restartService` but
the non-ok branch of the `if (response.ok)` has no `else`, so a non-2xx
response produces no resynchronization and no toast at all; only a rejected
fetch reaches the `catch` and toasts failure. -/
def simulateIncident (r : ActionResult) : Nat × List Toast :=
  match r with
  | ActionResult.resp true => (1, [Toast.success "Incident simulated successfully"])
  | ActionResult.resp false => (0, [])
  | ActionResult.netError => (0, [Toast.error "Error simulating incident"])

/-- C4: a successful restart triggers exactly one forced resynchronization and
emits a success notification; a failed restart (non-2xx response or rejected
fetch) triggers zero resynchronizations and emits a failure notification. -/
theorem C4_restart_dispatch (serviceId : Nat) (r : ActionResult) :
    (r = ActionResult.resp true →
      (restartService serviceId r).1 = 1 ∧
      (restartService serviceId r).2 = [Toast.success "Service restarted successfully"]) ∧
    (r ≠ ActionResult.resp true →
      (restartService serviceId r).1 = 0 ∧
      ∃ m, (restartService serviceId r).2 = [Toast.error m]) := by
  rcases r with _ | ⟨_ | _⟩
  · refine ⟨fun h => ?_, fun _ => ⟨rfl, ⟨"Error restarting service", rfl⟩⟩⟩
    simp at h
  · refine ⟨fun h => ?_, fun _ => ⟨rfl, ⟨"Failed to restart service", rfl⟩⟩⟩
    simp at h
  · exact ⟨fun _ => ⟨rfl, rfl⟩, fun h => absurd rfl h⟩

/-- Witness for C4 at service id 1: a 2xx outcome and a non-2xx outcome. -/
theorem C4_witness :
    ((restartService 1 (ActionResult.resp true)).1 = 1 ∧
      (restartService 1 (ActionResult.resp true)).2 =
        [Toast.success "Service restarted successfully"]) ∧
    (restartService 1 (ActionResult.resp false)).1 = 0 :=
  ⟨(C4_restart_dispatch 1 (ActionResult.resp true)).1 rfl,
   ((C4_restart_dispatch 1 (ActionResult.resp false)).2 (by decide)).1⟩

/-- C5 counterexample: on a non-2xx response, `simulateIncident` emits no
notification at all (and does not resync), whereas the claim requires a
failure notification on every failure, including a non-2xx response. -/
theorem C5_counterexample :
    simulateIncident (ActionResult.resp false) = (0, []) := rfl

/-- C5 as amended: `simulateIncident` matches the shape of `restartService` on
success (one resynchronization, success toast) and on a rejected fetch
(zero resynchronizations, failure toast), but on a non-2xx response it
triggers no resynchronization and emits no notification at all. -/
theorem C5_simulate_dispatch (r : ActionResult) :
    (r = ActionResult.resp true →
      simulateIncident r = (1, [Toast.success "Incident simulated successfully"])) ∧
    (r = ActionResult.resp false → simulateIncident r = (0, [])) ∧
    (r = ActionResult.netError →
      simulateIncident r = (0, [Toast.error "Error simulating incident"])) := by
  rcases r with _ | ⟨_ | _⟩
  · refine ⟨fun h => ?_, ⟨fun h => ?_, fun _ => rfl⟩⟩ <;> simp at h
  · refine ⟨fun h => ?_, ⟨fun _ => rfl, fun h => ?_⟩⟩ <;> simp at h
  · refine ⟨fun _ => rfl, ⟨fun h => ?_, fun h => ?_⟩⟩ <;> simp at h

/-- Witness for C5 as amended: the three concrete outcomes. -/
theorem C5_witness :
    simulateIncident (ActionResult.resp true) =
      (1, [Toast.success "Incident simulated successfully"]) ∧
    simulateIncident (ActionResult.resp false) = (0, []) ∧
    simulateIncident ActionResult.netError =
      (0, [Toast.error "Error simulating incident"]) :=
  ⟨(C5_simulate_dispatch (ActionResult.resp true)).1 rfl,
   (C5_simulate_dispatch (ActionResult.resp false)).2.1 rfl,
   (C5_simulate_dispatch ActionResult.netError).2.2 rfl⟩

/-- The scheduler state installed by `App.useEffect` (App.jsx lines 64-68):
the component state, whether the `setInterval` handle is still installed
(`clearInterval` has not run), and the number of `fetchData` calls currently
in flight. -/
structure SchedState where
  app : AppState
  timerActive : Bool
  inFlight : Nat

/-- One scheduler event: an interval tick (which starts a `fetchData` when the
interval is installed and is inert after `clearInterval`), the effect cleanup
running `clearInterval`, or an in-flight `fetchData` resolving with the given
three read outcomes. -/
inductive SchedEvent where
  | tick
  | stopTimer
  | resolveSync (rs ri ra : ReadResult)

/-- The scheduler transition, modelled from the source: a tick starts a sync
only while the interval is installed; `clearInterval` merely uninstalls the
interval; a resolving `fetchData` applies its setters unconditionally — the
source has no epoch, generation token or mounted-check guarding the commit. -/
def schedStep (s : SchedState) (e : SchedEvent) : SchedState × List Toast :=
  match e with
  | SchedEvent.tick =>
      if s.timerActive then
        ({ s with inFlight := s.inFlight + 1 }, [])
      else (s, [])
  | SchedEvent.stopTimer => ({ s with timerActive := false }, [])
  | SchedEvent.resolveSync rs ri ra =>
      match s.inFlight with
      | 0 => (s, [])
      | n + 1 =>
          let r := fetchData s.app rs ri ra
          ({ app := r.1, timerActive := s.timerActive, inFlight := n }, r.2)

/-- Run the scheduler over a list of events, discarding toasts. -/
def schedRun (s : SchedState) (es : List SchedEvent) : SchedState :=
  List.foldl (fun st e => (schedStep st e).1) s es

/-- The fresh service list delivered by the sync that resolves after stop in
the C3 counterexample trace. -/
def lateBody : Json := Json.arr [Json.str "payments"]

/-- The C3 counterexample trace: a tick starts a sync while the interval is
installed, the cleanup runs `clearInterval`, and only then does the in-flight
sync resolve successfully. -/
def lateTrace : List SchedEvent :=
  [SchedEvent.tick, SchedEvent.stopTimer,
   SchedEvent.resolveSync (ReadResult.resp true (some lateBody))
     (ReadResult.resp true (some (Json.arr []))) (ReadResult.resp true (some Json.null))]

/-- C3 counterexample: a sync started before `stop()` resolves after `stop()`
and its result is committed — the final state holds the late body, which
differs from the prior services — whereas the claim says such a result is
never committed. -/
theorem C3_counterexample :
    (schedRun ⟨priorState, true, 0⟩ lateTrace).timerActive = false ∧
    (schedRun ⟨priorState, true, 0⟩ lateTrace).app.services = lateBody ∧
    lateBody ≠ priorState.services := by
  refine ⟨rfl, rfl, ?_⟩
  intro h
  rw [show lateBody = Json.arr [Json.str "payments"] from rfl,
    show priorState.services = Json.arr [] from rfl] at h
  injection h with h1
  exact List.noConfusion h1

/-- C3 as amended: after `stop()` the interval is uninstalled, so ticks start
no further syncs; but a sync already in flight commits its result when it
resolves, whether or not the timer has been stopped — the source checks no
generation token before committing. -/
theorem C3_stop_semantics (s : SchedState) (rs ri ra : ReadResult) :
    (s.timerActive = false → schedStep s SchedEvent.tick = (s, [])) ∧
    (∀ n : Nat, s.inFlight = n + 1 →
      (schedStep s (SchedEvent.resolveSync rs ri ra)).1.app =
        (fetchData s.app rs ri ra).1) := by
  constructor
  · intro h
    simp [schedStep, h]
  · intro n h
    simp [schedStep, h]

/-- Witness for C3 as amended, on the stopped state reached by the
counterexample trace prefix: a tick is inert, and a resolving sync with one
call in flight commits the fetched result. -/
theorem C3_witness :
    ((⟨priorState, false, 1⟩ : SchedState).timerActive = false →
      schedStep ⟨priorState, false, 1⟩ SchedEvent.tick = (⟨priorState, false, 1⟩, [])) ∧
    (schedStep ⟨priorState, false, 1⟩
        (SchedEvent.resolveSync (ReadResult.resp true (some lateBody))
          (ReadResult.resp true (some (Json.arr [])))
          (ReadResult.resp true (some Json.null)))).1.app =
      (fetchData priorState (ReadResult.resp true (some lateBody))
        (ReadResult.resp true (some (Json.arr []))) (ReadResult.resp true (some Json.null))).1 :=
  ⟨(C3_stop_semantics ⟨priorState, false, 1⟩ (ReadResult.resp true (some lateBody))
      (ReadResult.resp true (some (Json.arr []))) (ReadResult.resp true (some Json.null))).1,
   (C3_stop_semantics ⟨priorState, false, 1⟩ (ReadResult.resp true (some lateBody))
      (ReadResult.resp true (some (Json.arr []))) (ReadResult.resp true (some Json.null))).2 0 rfl⟩

/-- C6 counterexample: a sync in which all three reads fail with a network
error.  The claim says a `syncError` marker is set on the retained Snapshot
and surfaced passively; instead the code returns the prior state bit-identical
— the state record carries no error field at all — and surfaces the failure
only through an active toast notification. -/
theorem C6_counterexample :
    fetchData priorState ReadResult.netError ReadResult.netError ReadResult.netError =
      (priorState, [Toast.error "Failed to fetch data from backend"]) := rfl

/-- C6 as amended: a failed sync is caught inside `fetchData` (it never throws
into the view layer): the state is retained completely unchanged — no
`syncError` marker exists or is set — and one active error toast is emitted;
the interval is untouched by the resolving sync, so while the timer is
installed the next tick still starts a sync on schedule. -/
theorem C6_failed_sync_surface (st : AppState) (rs ri ra : ReadResult)
    (h : (readFailed rs || readFailed ri || readFailed ra) = true) :
    fetchData st rs ri ra = (st, [Toast.error "Failed to fetch data from backend"]) ∧
    (∀ s : SchedState, (schedStep s (SchedEvent.resolveSync rs ri ra)).1.timerActive =
      s.timerActive) ∧
    (∀ s : SchedState, s.timerActive = true →
      (schedStep s SchedEvent.tick).1.inFlight = s.inFlight + 1) := by
  refine ⟨?_, ?_, ?_⟩
  · rcases rs with _ | ⟨o1, _ | b1⟩ <;>
      rcases ri with _ | ⟨o2, _ | b2⟩ <;>
        rcases ra with _ | ⟨o3, _ | b3⟩ <;>
          simp [readFailed] at h <;>
            rfl
  · intro s
    rcases s with ⟨app, t, _ | n⟩ <;> rfl
  · intro s hs
    simp [schedStep, hs]

/-- Witness for C6 as amended at the all-reads-rejected sync and a concrete
running scheduler state. -/
theorem C6_witness :
    fetchData priorState ReadResult.netError ReadResult.netError ReadResult.netError =
      (priorState, [Toast.error "Failed to fetch data from backend"]) ∧
    (schedStep ⟨priorState, true, 1⟩
        (SchedEvent.resolveSync ReadResult.netError ReadResult.netError
          ReadResult.netError)).1.timerActive = true ∧
    (schedStep ⟨priorState, true, 0⟩ SchedEvent.tick).1.inFlight = 1 :=
  ⟨(C6_failed_sync_surface priorState ReadResult.netError ReadResult.netError
      ReadResult.netError (by decide)).1,
   (C6_failed_sync_surface priorState ReadResult.netError ReadResult.netError
      ReadResult.netError (by decide)).2.1 ⟨priorState, true, 1⟩,
   (C6_failed_sync_surface priorState ReadResult.netError ReadResult.netError
      ReadResult.netError (by decide)).2.2 ⟨priorState, true, 0⟩ rfl⟩

/-- The tick times of `setInterval(fetchData, period)` observed while the
clock is advanced to `horizon`: the callback fires at every positive multiple
of the period up to the horizon. -/
def tickTimes (period horizon : Nat) : List Nat :=
  List.map (fun k => (k + 1) * period) (List.range (horizon / period))

/-- The times at which the effect of App.jsx lines 64-68 invokes `fetchData`,
with the clock advanced to `horizon`: one immediate call at t = 0 on mount,
then the interval ticks; when `clearInterval` runs at `stopAt`, ticks at or
after that moment no longer fire. -/
def syncAttempts (period horizon : Nat) (stopAt : Option Nat) : List Nat :=
  0 :: List.filter
    (fun t => match stopAt with
      | none => true
      | some s => decide (t < s))
    (tickTimes period horizon)

/-- C9: with period 5000 ms and the clock advanced to 12000 ms, exactly three
sync attempts occur, at t = 0, 5000 and 10000; and when `stop()` runs at
t = 11000, no attempt occurs at t = 15000 (the attempts are again exactly
t = 0, 5000, 10000). -/
theorem C9_polling_schedule :
    syncAttempts 5000 12000 none = [0, 5000, 10000] ∧
    (syncAttempts 5000 12000 none).length = 3 ∧
    syncAttempts 5000 15000 (some 11000) = [0, 5000, 10000] ∧
    (15000 ∈ syncAttempts 5000 15000 (some 11000)) = False := by
  refine ⟨rfl, rfl, rfl, ?_⟩
  simp [syncAttempts, tickTimes, List.range, List.range.loop]

/-- A service row as consumed by `Dashboard.jsx`: the fields the component
reads (`type` is a Lean keyword, rendered `serviceType`). -/
structure Service where
  id : Nat
  name : String
  serviceType : String
  port : Nat
  status : String
deriving DecidableEq

/-- An incident row as consumed by `Dashboard.jsx` and `AlertPanel.jsx`. -/
structure Incident where
  id : Nat
  service_name : String
  severity : Rat
  status : String
deriving DecidableEq

/-- `Dashboard.jsx` line 5: the number of services whose status is healthy. -/
def healthyCount (services : List Service) : Nat :=
  (List.filter (fun s => s.status == "healthy") services).length

/-- `Dashboard.jsx` line 6: the unhealthy count is the total minus the healthy
count. -/
def unhealthyCount (services : List Service) : Nat :=
  services.length - healthyCount services

/-- `Dashboard.jsx` line 7 (and the footer of App.jsx line 210): the number of
incidents whose status is not resolved. -/
def activeIncidents (incidents : List Incident) : Nat :=
  (List.filter (fun i => i.status != "resolved") incidents).length

/-- The two-service scenario of C7. -/
def demoServices : List Service :=
  [{ id := 1, name := "api", serviceType := "web", port := 8000, status := "healthy" },
   { id := 2, name := "db", serviceType := "database", port := 5432, status := "unhealthy" }]

/-- The two-incident scenario of C8. -/
def demoIncidents : List Incident :=
  [{ id := 1, service_name := "api", severity := 1/2, status := "open" },
   { id := 2, service_name := "db", severity := 1/2, status := "resolved" }]

/-- C7: for every service list, the healthy and unhealthy counts partition the
total; on the scenario list with one healthy and one unhealthy service both
counts are 1. -/
theorem C7_health_counts_partition :
    (∀ services : List Service,
      healthyCount services + unhealthyCount services = services.length) ∧
    healthyCount demoServices = 1 ∧ unhealthyCount demoServices = 1 := by
  refine ⟨fun services => ?_, by decide, by decide⟩
  exact Nat.add_sub_cancel' (List.length_filter_le _ _)

/-- C8: for every incident list, the active-incident metric counts exactly the
incidents whose status is not resolved; on the scenario list with one open and
one resolved incident the metric is 1. -/
theorem C8_active_incident_count :
    (∀ incidents : List Incident,
      activeIncidents incidents =
        List.countP (fun i => i.status != "resolved") incidents) ∧
    activeIncidents demoIncidents = 1 := by
  refine ⟨fun incidents => ?_, by decide⟩
  exact (List.countP_eq_length_filter _ _).symm

/-- `AlertPanel.jsx`: `if (!incidents || incidents.length === 0) return null;`
then the alert banner is rendered.  The prop may be absent (`none`); the
component inspects only the length of the list, never the incident statuses. -/
def alertPanel (incidents : Option (List Incident)) : Option String :=
  match incidents with
  | none => none
  | some l => if l.length == 0 then none else some "🚨 Active Incidents Detected"

/-- An already-resolved incident: `AlertPanel` still renders the alert for a
list containing only this incident. -/
def resolvedIncident : Incident :=
  { id := 7, service_name := "api", severity := 1/2, status := "resolved" }

/-- C10: `alertPanel` renders the alert exactly when it receives a non-empty
incident list — nothing when the prop is absent or the list is empty, and the
alert for every non-empty list, in particular for a list whose only incident
is already resolved. -/
theorem C10_alert_iff_nonempty :
    alertPanel none = none ∧
    alertPanel (some []) = none ∧
    (∀ (i : Incident) (l : List Incident),
      alertPanel (some (i :: l)) = some "🚨 Active Incidents Detected") ∧
    alertPanel (some [resolvedIncident]) = some "🚨 Active Incidents Detected" :=
  ⟨rfl, rfl, fun _ _ => rfl, rfl⟩
